import Mathlib

/-!
Shallow embedding of the chat-proxy service in `src/app.py`
(`chat_endpoint`, the global session store `active_sessions`, and the
constants the endpoint uses).  External effects — reading the
`OPENAI_API_KEY` environment variable, the random hex identifier
produced by `os.urandom(8).hex()`, the outcome of `MCPClient.from_dict`
and the outcome of `agent.run` — are supplied by an explicit oracle, so
the endpoint itself is a pure state-transition function on the session
store.  Object identity of client handles and agent instances is made
observable by numbering each construction with a counter held in the
server state.
-/

namespace App

/-- `MCP_SERVER_URL` constant of `app.py` (line 16). -/
def MCP_SERVER_URL : String := "https://testingmcp-kulj.onrender.com/sse"

/-- `SYSTEM_INSTRUCTION` constant of `app.py` (lines 20-28). -/
def SYSTEM_INSTRUCTION : String := "\nSYSTEM INSTRUCTIONS:\n1. You are an AI assistant for OxyLoans.\n2. If a user tries to perform restricted actions (like viewing cart, adding to cart, checkout) and you do not have their identity (user_id/token):\n   - Do NOT ask for \"session ID\", \"user ID\", or \"token\".\n   - Instead, politely ask them to login. Say: \"Please login to \x7baction\x7d. Please provide your mobile number to login.\"\n3. If the user provides a mobile number, use the \x27simple_login\x27 tool immediately.\n4. After successful login, you can proceed with their original request (e.g., showing the cart).\n"

/-- The canned apology returned when the agent run hits the recursion
limit (`app.py` line 127). -/
def cannedApology : String := "I\x27m having trouble processing that request in time. Please try again or provide more details."

/-- The `ChatOpenAI(model=request.model, temperature=0, api_key=api_key)`
construction at `app.py` line 94, with the arguments it receives. -/
structure LLM where
  model : String
  temperature : Nat
  api_key : String
deriving Repr, DecidableEq

/-- The `MCPAgent(llm=llm, client=client, max_steps=40)` construction at
`app.py` line 99.  `instanceId` numbers each construction so that
instance identity (Python object identity) is observable. -/
structure Agent where
  instanceId : Nat
  llm : LLM
  clientId : Nat
  max_steps : Nat
deriving Repr, DecidableEq

/-- One entry of `active_sessions` (`app.py` lines 79-83):
`{"client": client, "history": [], "agent": None}`.  `client` is the
construction number of the `MCPClient` held by the record; `history` is
the list of `{"role": ..., "content": ...}` pairs, kept as
(role, content); `agent` is the lazily initialised agent. -/
structure SessionRecord where
  client : Nat
  history : List (String × String)
  agent : Option Agent
deriving Repr, DecidableEq

/-- The server's mutable state: the global dict
`active_sessions : Dict[str, dict]` (`app.py` line 32) as an association
list, plus the construction counters that realise object identity for
`MCPClient` and `MCPAgent` instances. -/
structure ServerState where
  active_sessions : List (String × SessionRecord)
  nextClientId : Nat
  nextAgentId : Nat
deriving Repr, DecidableEq

/-- The request body `ChatRequest` (`app.py` lines 34-37):
`query: str`, `session_id: Optional[str] = None`,
`model: str = "gpt-4o"`. -/
structure ChatRequest where
  query : String
  session_id : Option String := none
  model : String := "gpt-4o"
deriving Repr, DecidableEq

/-- The response body `ChatResponse` (`app.py` lines 39-42).
`mcp_session_id` is never set by `chat_endpoint`, so it stays `none`. -/
structure ChatResponse where
  response : String
  session_id : String
  mcp_session_id : Option String := none
deriving Repr, DecidableEq

/-- `raise HTTPException(status_code=..., detail=...)` outcome:
(status code, detail message). -/
def HTTPError := Nat × String
deriving Repr, DecidableEq

/-- The external effects one call of `chat_endpoint` can observe:
the `OPENAI_API_KEY` environment variable (line 51), the hex string
`os.urandom(8).hex()` (line 59), the outcome of
`MCPClient.from_dict(config)` (line 74: `.error msg` when it raises),
and the outcome of `await agent.run(full_query)` as a function of the
query string passed to it (line 109: `.error msg` when it raises). -/
structure EffectOracle where
  apiKey : Option String
  freshHex : String
  clientNew : Except String Unit
  run : String → Except String String

/-- Python truthiness of an optional string: `None` and `""` are falsy,
every other string is truthy (used by `if not api_key`, line 52, and
`request.session_id or ...`, line 59). -/
def truthyOptStr : Option String → Bool
  | none => false
  | some s => !(s == "")

/-- `local_session_id = request.session_id or str(os.urandom(8).hex())`
(`app.py` line 59). -/
def localSessionId (sid : Option String) (freshHex : String) : String :=
  match sid with
  | some s => if s == "" then freshHex else s
  | none => freshHex

/-- Does `pats` start the list `l`? (character-list helper for Python's
`in` on strings). -/
def startsWithList : List Char → List Char → Bool
  | [], _ => true
  | _ :: _, [] => false
  | p :: ps, c :: cs => p == c && startsWithList ps cs

/-- Does `pat` occur contiguously inside `l`? -/
def occursInList (pat : List Char) : List Char → Bool
  | [] => pat.isEmpty
  | c :: cs => startsWithList pat (c :: cs) || occursInList pat cs

/-- Python's `pat in s` substring test on strings
(`"Recursion limit" in error_msg`, `app.py` line 125). -/
def occursIn (pat s : String) : Bool := occursInList pat.data s.data

/-- Replace the value stored under key `k` in an association list
(in-place mutation of the dict entry's fields in `app.py`). -/
def updateAssoc (l : List (String × SessionRecord)) (k : String)
    (v : SessionRecord) : List (String × SessionRecord) :=
  l.map (fun p => match p.1 == k with | true => (k, v) | false => p)

/-- Lines 61-85 of `app.py`: if `local_session_id` is not a key of
`active_sessions`, construct an `MCPClient` (which may raise, line 74)
and insert `{"client": client, "history": [], "agent": None}` under
`local_session_id`; on construction failure raise
`HTTPException(500, "Failed to connect to MCP: ...")` and leave the
store untouched. -/
def resolveSession (clientNew : Except String Unit) (lsid : String)
    (st : ServerState) : Except HTTPError ServerState :=
  if (st.active_sessions.lookup lsid).isSome then .ok st
  else
    match clientNew with
    | .error e => .error (500, "Failed to connect to MCP: " ++ e)
    | .ok () =>
      .ok { st with
        active_sessions :=
          (lsid, ⟨st.nextClientId, [], none⟩) :: st.active_sessions,
        nextClientId := st.nextClientId + 1 }

/-- Lines 93-101 of `app.py`: if the record's `agent` field is `None`,
build `ChatOpenAI(model=request.model, temperature=0, api_key=api_key)`
and store `MCPAgent(llm=llm, client=client, max_steps=40)` in the
record; otherwise leave the record alone. -/
def ensure_agent (api_key model : String) (lsid : String)
    (st : ServerState) : ServerState :=
  match st.active_sessions.lookup lsid with
  | none => st
  | some r =>
    match r.agent with
    | some _ => st
    | none =>
      let llm : LLM := ⟨model, 0, api_key⟩
      let r2 : SessionRecord := { r with agent := some ⟨st.nextAgentId, llm, r.client, 40⟩ }
      { st with
        active_sessions := updateAssoc st.active_sessions lsid r2,
        nextAgentId := st.nextAgentId + 1 }

/-- `full_query = f"{SYSTEM_INSTRUCTION}\n\nUser Query: {request.query}"`
(`app.py` line 106). -/
def full_query (query : String) : String :=
  SYSTEM_INSTRUCTION ++ "\n\nUser Query: " ++ query

/-- Append entries to the history list of the record stored under
`lsid` (the two `session_data["history"].append(...)` calls,
`app.py` lines 112-113). -/
def appendHistory (st : ServerState) (lsid : String)
    (entries : List (String × String)) : ServerState :=
  match st.active_sessions.lookup lsid with
  | none => st
  | some r =>
    let r2 : SessionRecord := { r with history := r.history ++ entries }
    { st with active_sessions := updateAssoc st.active_sessions lsid r2 }

/-- Lines 103-131 of `app.py`: run the agent on the composed query.
On success append the (user, query) and (assistant, result) pairs to the
record's history and return the result.  On an exception whose message
contains "Recursion limit", return the canned apology as a success with
the history untouched; on any other exception re-raise it as
`HTTPException(500, str(e))`. -/
def run_turn (runOutcome : Except String String) (lsid query : String)
    (st : ServerState) : Except HTTPError ChatResponse × ServerState :=
  match runOutcome with
  | .ok result =>
    (.ok ⟨result, lsid, none⟩,
     appendHistory st lsid [("user", query), ("assistant", result)])
  | .error e =>
    if occursIn "Recursion limit" e then
      (.ok ⟨cannedApology, lsid, none⟩, st)
    else
      (.error (500, e), st)

/-- `chat_endpoint` (`app.py` lines 44-131) as a state-transition
function: validate the API key, resolve or create the session record,
lazily construct the agent, run the turn.  The returned `Except` is the
HTTP outcome (`.error` = raised `HTTPException`). -/
def chat_endpoint (eff : EffectOracle) (request : ChatRequest)
    (st : ServerState) : Except HTTPError ChatResponse × ServerState :=
  if !truthyOptStr eff.apiKey then
    (.error (500, "OPENAI_API_KEY not configured"), st)
  else
    let local_session_id := localSessionId request.session_id eff.freshHex
    match resolveSession eff.clientNew local_session_id st with
    | .error err => (.error err, st)
    | .ok st1 =>
      let api_key := eff.apiKey.getD ""
      let st2 := ensure_agent api_key request.model local_session_id st1
      run_turn (eff.run (full_query request.query)) local_session_id
        request.query st2

/-!  Helper lemmas about the store operations. -/

theorem lookup_updateAssoc (l : List (String × SessionRecord)) (k : String)
    (v : SessionRecord) :
    (updateAssoc l k v).lookup k = (l.lookup k).map (fun _ => v) := by
  induction l with
  | nil => rfl
  | cons p t ih =>
    obtain ⟨a, b⟩ := p
    cases hak : (a == k) with
    | true =>
      have ha : a = k := by simpa using hak
      subst ha
      simp [updateAssoc, List.lookup]
    | false =>
      have hka : (k == a) = false := by
        have : ¬ a = k := by simpa using hak
        simpa using fun h => this h.symm
      simp [updateAssoc, List.lookup, hak, hka]
      simpa [updateAssoc] using ih

theorem resolveSession_of_present {lsid : String} {st : ServerState}
    {r : SessionRecord} (clientNew : Except String Unit)
    (h : st.active_sessions.lookup lsid = some r) :
    resolveSession clientNew lsid st = .ok st := by
  simp [resolveSession, h]

theorem resolveSession_of_absent {lsid : String} {st : ServerState}
    (h : st.active_sessions.lookup lsid = none) :
    resolveSession (.ok ()) lsid st =
      .ok ⟨(lsid, ⟨st.nextClientId, [], none⟩) :: st.active_sessions,
           st.nextClientId + 1, st.nextAgentId⟩ := by
  simp [resolveSession, h]

theorem ensure_agent_of_agent_some {lsid : String} {st : ServerState}
    {r : SessionRecord} {a : Agent} (k m : String)
    (h : st.active_sessions.lookup lsid = some r) (ha : r.agent = some a) :
    ensure_agent k m lsid st = st := by
  simp [ensure_agent, h, ha]

theorem ensure_agent_of_agent_none {lsid : String} {st : ServerState}
    {r : SessionRecord} (k m : String)
    (h : st.active_sessions.lookup lsid = some r) (ha : r.agent = none) :
    ensure_agent k m lsid st =
      { st with
        active_sessions := updateAssoc st.active_sessions lsid
          { r with agent := some ⟨st.nextAgentId, ⟨m, 0, k⟩, r.client, 40⟩ },
        nextAgentId := st.nextAgentId + 1 } := by
  simp [ensure_agent, h, ha]

theorem ensure_agent_lookup {lsid : String} {st : ServerState}
    {r : SessionRecord} (k m : String)
    (h : st.active_sessions.lookup lsid = some r) :
    ∃ a : Agent,
      (ensure_agent k m lsid st).active_sessions.lookup lsid =
        some ⟨r.client, r.history, some a⟩ := by
  cases ha : r.agent with
  | some a0 =>
    refine ⟨a0, ?_⟩
    rw [ensure_agent_of_agent_some k m h ha, h]
    cases r
    simp_all
  | none =>
    refine ⟨⟨st.nextAgentId, ⟨m, 0, k⟩, r.client, 40⟩, ?_⟩
    rw [ensure_agent_of_agent_none k m h ha]
    simp [lookup_updateAssoc, h]

theorem lookup_cons_self (t : List (String × SessionRecord)) (k : String)
    (v : SessionRecord) : ((k, v) :: t).lookup k = some v := by
  simp [List.lookup]

/-!  Claim theorems. -/

/-- C6: when the `OPENAI_API_KEY` environment variable is absent,
`chat_endpoint` fails immediately with HTTP 500
"OPENAI_API_KEY not configured" and the session store (the whole server
state) is returned unchanged: no lookup, creation or other mutation has
happened. -/
theorem chat_missing_api_key (eff : EffectOracle) (request : ChatRequest)
    (st : ServerState) (h : eff.apiKey = none) :
    chat_endpoint eff request st =
      (.error (500, "OPENAI_API_KEY not configured"), st) := by
  simp [chat_endpoint, truthyOptStr, h]

/-- Witness for C6 at a concrete input. -/
theorem chat_missing_api_key_witness :
    chat_endpoint ⟨none, "f0", .ok (), fun _ => .ok "a"⟩
        ⟨"q", none, "gpt-4o"⟩ ⟨[], 0, 0⟩ =
      (.error (500, "OPENAI_API_KEY not configured"), ⟨[], 0, 0⟩) :=
  chat_missing_api_key _ _ _ rfl

/-- C5: when the session is new and remote-client construction fails,
`chat_endpoint` fails with HTTP 500 "Failed to connect to MCP: ..." and
the server state is unchanged — no record is inserted. -/
theorem chat_client_failure (eff : EffectOracle) (request : ChatRequest)
    (st : ServerState) (msg : String)
    (hkey : truthyOptStr eff.apiKey = true)
    (hclient : eff.clientNew = .error msg)
    (habsent : st.active_sessions.lookup
      (localSessionId request.session_id eff.freshHex) = none) :
    chat_endpoint eff request st =
      (.error (500, "Failed to connect to MCP: " ++ msg), st) := by
  simp [chat_endpoint, hkey, resolveSession, habsent, hclient]

/-- Witness for C5 at a concrete input. -/
theorem chat_client_failure_witness :
    chat_endpoint ⟨some "k", "f0", .error "boom", fun _ => .ok "a"⟩
        ⟨"q", none, "gpt-4o"⟩ ⟨[], 0, 0⟩ =
      (.error (500, "Failed to connect to MCP: boom"), ⟨[], 0, 0⟩) :=
  chat_client_failure _ _ _ "boom" rfl rfl rfl

/-- C2: resolving a session identifier not present in the store (with
remote-client construction succeeding) creates exactly one new record —
the store grows by one entry — and that record has empty history and
null agent. -/
theorem resolve_creates_record (sid : String) (st : ServerState)
    (h : st.active_sessions.lookup sid = none) :
    ∃ st' : ServerState,
      resolveSession (.ok ()) sid st = .ok st' ∧
      st'.active_sessions.length = st.active_sessions.length + 1 ∧
      st'.active_sessions.lookup sid = some ⟨st.nextClientId, [], none⟩ := by
  refine ⟨_, resolveSession_of_absent h, by simp, ?_⟩
  exact lookup_cons_self _ _ _

/-- Witness for C2 at a concrete input. -/
theorem resolve_creates_record_witness :
    ∃ st' : ServerState,
      resolveSession (.ok ()) "abc" (⟨[], 0, 0⟩ : ServerState) = .ok st' ∧
      st'.active_sessions.length =
        (⟨[], 0, 0⟩ : ServerState).active_sessions.length + 1 ∧
      st'.active_sessions.lookup "abc" = some ⟨0, [], none⟩ :=
  resolve_creates_record "abc" ⟨[], 0, 0⟩ rfl

theorem resolveSession_ok_state (lsid : String) (st : ServerState) :
    ∃ st1 : ServerState, resolveSession (.ok ()) lsid st = .ok st1 ∧
      ∃ r : SessionRecord, st1.active_sessions.lookup lsid = some r := by
  cases h : st.active_sessions.lookup lsid with
  | some r => exact ⟨st, resolveSession_of_present _ h, r, h⟩
  | none => exact ⟨_, resolveSession_of_absent h, _, lookup_cons_self _ _ _⟩

/-- C4: `ensure_agent` is idempotent.  On a record whose `agent` field
is null it constructs and stores a fresh agent instance (numbered with
the current agent counter); a second call on the resulting state is the
identity, so the same agent instance is returned and no further agent is
constructed. -/
theorem ensure_agent_idempotent (k m lsid : String) (st : ServerState)
    (r : SessionRecord)
    (h : st.active_sessions.lookup lsid = some r) :
    (r.agent = none →
      (ensure_agent k m lsid st).active_sessions.lookup lsid =
        some { r with
          agent := some ⟨st.nextAgentId, ⟨m, 0, k⟩, r.client, 40⟩ }) ∧
    ensure_agent k m lsid (ensure_agent k m lsid st) =
      ensure_agent k m lsid st := by
  constructor
  · intro ha
    rw [ensure_agent_of_agent_none k m h ha]
    simp [lookup_updateAssoc, h]
  · cases ha : r.agent with
    | some a0 =>
      rw [ensure_agent_of_agent_some k m h ha,
        ensure_agent_of_agent_some k m h ha]
    | none =>
      have h2 : (ensure_agent k m lsid st).active_sessions.lookup lsid =
          some { r with
            agent := some ⟨st.nextAgentId, ⟨m, 0, k⟩, r.client, 40⟩ } := by
        rw [ensure_agent_of_agent_none k m h ha]
        simp [lookup_updateAssoc, h]
      exact ensure_agent_of_agent_some k m h2 rfl

/-- Witness for C4 at a concrete input. -/
theorem ensure_agent_idempotent_witness :
    ((⟨3, [], none⟩ : SessionRecord).agent = none →
      (ensure_agent "k" "gpt-4o" "s1"
          (⟨[("s1", ⟨3, [], none⟩)], 4, 0⟩ : ServerState)).active_sessions.lookup
          "s1" =
        some { (⟨3, [], none⟩ : SessionRecord) with
          agent := some ⟨0, ⟨"gpt-4o", 0, "k"⟩, 3, 40⟩ }) ∧
    ensure_agent "k" "gpt-4o" "s1"
        (ensure_agent "k" "gpt-4o" "s1"
          (⟨[("s1", ⟨3, [], none⟩)], 4, 0⟩ : ServerState)) =
      ensure_agent "k" "gpt-4o" "s1"
        (⟨[("s1", ⟨3, [], none⟩)], 4, 0⟩ : ServerState) :=
  ensure_agent_idempotent "k" "gpt-4o" "s1" _ ⟨3, [], none⟩ rfl

/-- C7: whenever the agent run raises an exception whose message
contains "Recursion limit", the chat turn returns the canned apology as
an HTTP success (an `.ok` response, nothing raised), for any request
whose preceding steps succeed. -/
theorem run_turn_recursion_limit (eff : EffectOracle)
    (request : ChatRequest) (st : ServerState) (e : String)
    (hkey : truthyOptStr eff.apiKey = true)
    (hclient : eff.clientNew = .ok ())
    (hrun : eff.run (full_query request.query) = .error e)
    (hmark : occursIn "Recursion limit" e = true) :
    (chat_endpoint eff request st).1 =
      .ok ⟨cannedApology,
        localSessionId request.session_id eff.freshHex, none⟩ := by
  obtain ⟨st1, h1, r, hr⟩ :=
    resolveSession_ok_state (localSessionId request.session_id eff.freshHex) st
  rw [← hclient] at h1
  simp [chat_endpoint, hkey, h1, run_turn, hrun, hmark]

/-- Witness for C7 at a concrete input. -/
theorem run_turn_recursion_limit_witness :
    (chat_endpoint
        ⟨some "k", "f0", .ok (), fun _ => .error "Recursion limit of 40 reached"⟩
        ⟨"q", none, "gpt-4o"⟩ ⟨[], 0, 0⟩).1 =
      .ok ⟨cannedApology, localSessionId none "f0", none⟩ :=
  run_turn_recursion_limit _ _ _ "Recursion limit of 40 reached" rfl rfl rfl
    (by decide)

/-- C8: whenever the agent run raises an exception whose message does
not contain "Recursion limit", the chat turn fails with HTTP 500
carrying exactly the underlying exception message (a single
propagation, no retry logic exists in the function). -/
theorem run_turn_generic_failure (eff : EffectOracle)
    (request : ChatRequest) (st : ServerState) (e : String)
    (hkey : truthyOptStr eff.apiKey = true)
    (hclient : eff.clientNew = .ok ())
    (hrun : eff.run (full_query request.query) = .error e)
    (hmark : occursIn "Recursion limit" e = false) :
    (chat_endpoint eff request st).1 = .error (500, e) := by
  obtain ⟨st1, h1, r, hr⟩ :=
    resolveSession_ok_state (localSessionId request.session_id eff.freshHex) st
  rw [← hclient] at h1
  simp [chat_endpoint, hkey, h1, run_turn, hrun, hmark]

/-- Witness for C8 at a concrete input. -/
theorem run_turn_generic_failure_witness :
    (chat_endpoint ⟨some "k", "f0", .ok (), fun _ => .error "kaboom"⟩
        ⟨"q", none, "gpt-4o"⟩ ⟨[], 0, 0⟩).1 =
      .error (500, "kaboom") :=
  run_turn_generic_failure _ _ _ "kaboom" rfl rfl rfl (by decide)

/-- C10: when the agent run raises — whether or not the message contains
"Recursion limit" — the session record's history is exactly what it was
before the call: exchanges are appended only after a successful run. -/
theorem history_unchanged_on_run_failure (eff : EffectOracle)
    (request : ChatRequest) (st : ServerState) (r : SessionRecord)
    (e : String)
    (hkey : truthyOptStr eff.apiKey = true)
    (hsess : st.active_sessions.lookup
      (localSessionId request.session_id eff.freshHex) = some r)
    (hrun : eff.run (full_query request.query) = .error e) :
    ∃ r' : SessionRecord,
      (chat_endpoint eff request st).2.active_sessions.lookup
          (localSessionId request.session_id eff.freshHex) = some r' ∧
      r'.history = r.history := by
  have h1 := resolveSession_of_present eff.clientNew hsess
  obtain ⟨a, h2⟩ := ensure_agent_lookup (eff.apiKey.getD "") request.model hsess
  refine ⟨⟨r.client, r.history, some a⟩, ?_, rfl⟩
  cases hm : occursIn "Recursion limit" e <;>
    simp [chat_endpoint, hkey, h1, run_turn, hrun, hm, h2]

/-- Witness for C10 at a concrete input. -/
theorem history_unchanged_on_run_failure_witness :
    ∃ r' : SessionRecord,
      (chat_endpoint ⟨some "k", "f0", .ok (), fun _ => .error "x"⟩
          ⟨"q", some "s1", "gpt-4o"⟩
          ⟨[("s1", ⟨0, [("user", "hello"), ("assistant", "hi")], none⟩)], 1,
            0⟩).2.active_sessions.lookup
          (localSessionId (some "s1") "f0") = some r' ∧
      r'.history =
        (⟨0, [("user", "hello"), ("assistant", "hi")], none⟩ :
          SessionRecord).history :=
  history_unchanged_on_run_failure
    ⟨some "k", "f0", .ok (), fun _ => .error "x"⟩
    ⟨"q", some "s1", "gpt-4o"⟩
    ⟨[("s1", ⟨0, [("user", "hello"), ("assistant", "hi")], none⟩)], 1, 0⟩
    ⟨0, [("user", "hello"), ("assistant", "hi")], none⟩ "x" rfl rfl rfl

/-- C3: resolving a session identifier already present in the store
returns the state — and hence the stored record — completely unchanged,
for any outcome of client construction: the client-construction counter
does not move, so no second remote-connection client is ever built for
that identifier, on this call or any repetition of it. -/
theorem resolve_existing_stable (clientNew : Except String Unit)
    (sid : String) (st : ServerState) (r : SessionRecord)
    (h : st.active_sessions.lookup sid = some r) :
    resolveSession clientNew sid st = .ok st ∧
    st.active_sessions.lookup sid = some r := by
  exact ⟨resolveSession_of_present clientNew h, h⟩

/-- C1 as stated is false on the code: when a `session_id` is supplied
but not present in the store, `chat_endpoint` does NOT insert the new
record under a freshly generated identifier — `local_session_id =
request.session_id or os.urandom(8).hex()` keeps the supplied id, and
the record is inserted under it.  Concretely: with an empty store, the
supplied id "abc" and the generated hex "gen0123", after the call no
record exists under "gen0123" while a record does exist under "abc". -/
theorem resolve_generated_id_counterexample :
    ((⟨[], 0, 0⟩ : ServerState).active_sessions.lookup "abc" = none) ∧
    ((chat_endpoint ⟨some "k", "gen0123", .ok (), fun _ => .ok "resp"⟩
        ⟨"q", some "abc", "gpt-4o"⟩
        ⟨[], 0, 0⟩).2.active_sessions.lookup "gen0123" = none) ∧
    (((chat_endpoint ⟨some "k", "gen0123", .ok (), fun _ => .ok "resp"⟩
        ⟨"q", some "abc", "gpt-4o"⟩
        ⟨[], 0, 0⟩).2.active_sessions.lookup "abc").isSome = true) := by
  refine ⟨rfl, ?_, ?_⟩ <;> rfl

/-- C1 (amended): if the supplied `session_id` is present in the store,
resolve returns the state (hence the record) unchanged; if the
`session_id` is supplied but not present, a new record is inserted
under the SUPPLIED identifier (no generated identifier is used); only
when no `session_id` is supplied is the freshly generated identifier
used as the key of the new record. -/
theorem resolve_cases (clientNew : Except String Unit) (sid fresh : String)
    (st : ServerState) (hOk : clientNew = .ok ()) (hne : ¬ sid = "") :
    (∀ r : SessionRecord, st.active_sessions.lookup sid = some r →
      resolveSession clientNew (localSessionId (some sid) fresh) st =
        .ok st) ∧
    (st.active_sessions.lookup sid = none →
      resolveSession clientNew (localSessionId (some sid) fresh) st =
        .ok ⟨(sid, ⟨st.nextClientId, [], none⟩) :: st.active_sessions,
             st.nextClientId + 1, st.nextAgentId⟩) ∧
    (st.active_sessions.lookup fresh = none →
      resolveSession clientNew (localSessionId none fresh) st =
        .ok ⟨(fresh, ⟨st.nextClientId, [], none⟩) :: st.active_sessions,
             st.nextClientId + 1, st.nextAgentId⟩) := by
  have hb : (sid == "") = false := by simpa using hne
  have hls : localSessionId (some sid) fresh = sid := by
    simp [localSessionId, hb]
  subst hOk
  refine ⟨?_, ?_, ?_⟩
  · intro r h
    rw [hls]
    exact resolveSession_of_present _ h
  · intro h
    rw [hls]
    exact resolveSession_of_absent h
  · intro h
    exact resolveSession_of_absent h

/-- Witness for the amended C1 at a concrete input. -/
theorem resolve_cases_witness :
    (∀ r : SessionRecord,
      (⟨[], 0, 0⟩ : ServerState).active_sessions.lookup "abc" = some r →
      resolveSession (.ok ()) (localSessionId (some "abc") "gen0123")
          (⟨[], 0, 0⟩ : ServerState) = .ok ⟨[], 0, 0⟩) ∧
    ((⟨[], 0, 0⟩ : ServerState).active_sessions.lookup "abc" = none →
      resolveSession (.ok ()) (localSessionId (some "abc") "gen0123")
          (⟨[], 0, 0⟩ : ServerState) =
        .ok ⟨[("abc", ⟨0, [], none⟩)], 0 + 1, 0⟩) ∧
    ((⟨[], 0, 0⟩ : ServerState).active_sessions.lookup "gen0123" = none →
      resolveSession (.ok ()) (localSessionId none "gen0123")
          (⟨[], 0, 0⟩ : ServerState) =
        .ok ⟨[("gen0123", ⟨0, [], none⟩)], 0 + 1, 0⟩) :=
  resolve_cases (.ok ()) "abc" "gen0123" ⟨[], 0, 0⟩ rfl (by decide)

/-- Witness for C3 at a concrete input. -/
theorem resolve_existing_stable_witness :
    resolveSession (.ok ()) "s1"
        (⟨[("s1", ⟨7, [], none⟩)], 8, 0⟩ : ServerState) =
      .ok ⟨[("s1", ⟨7, [], none⟩)], 8, 0⟩ ∧
    (⟨[("s1", ⟨7, [], none⟩)], 8, 0⟩ : ServerState).active_sessions.lookup
        "s1" = some ⟨7, [], none⟩ :=
  resolve_existing_stable (.ok ()) "s1" _ ⟨7, [], none⟩ rfl

/-!  N successive chat turns (claim C9). -/

/-- A sequence of calls of `chat_endpoint`, each with its own effect
oracle and request, threading the server state. -/
def chatMany : List (EffectOracle × ChatRequest) → ServerState → ServerState
  | [], st => st
  | t :: rest, st => chatMany rest (chat_endpoint t.1 t.2 st).2

/-- The history produced by a list of (query, result) exchanges: the
(user, query) pair followed by the (assistant, result) pair, per turn,
in order. -/
def turnsHistory : List (String × String) → List (String × String)
  | [] => []
  | t :: ts => ("user", t.1) :: ("assistant", t.2) :: turnsHistory ts

/-- Check that a history strictly alternates a "user" entry followed by
an "assistant" entry, starting with "user" and ending with
"assistant". -/
def alternatingUA : List (String × String) → Bool
  | [] => true
  | (r1, _) :: rest =>
    r1 == "user" &&
      (match rest with
       | [] => false
       | (r2, _) :: rest2 => r2 == "assistant" && alternatingUA rest2)

/-- A chat turn addressed to session `sid` that makes it past the
environment check and whose agent run succeeds. -/
def goodTurn (sid : String) (t : EffectOracle × ChatRequest) : Prop :=
  truthyOptStr t.1.apiKey = true ∧ t.2.session_id = some sid ∧
  ¬ sid = "" ∧ ∃ res : String, t.1.run (full_query t.2.query) = .ok res

theorem turnsHistory_length (ts : List (String × String)) :
    (turnsHistory ts).length = 2 * ts.length := by
  induction ts with
  | nil => rfl
  | cons t ts ih =>
    simp [turnsHistory, ih]
    omega

theorem alternatingUA_turnsHistory (ts : List (String × String)) :
    alternatingUA (turnsHistory ts) = true := by
  induction ts with
  | nil => rfl
  | cons t ts ih => simp [turnsHistory, alternatingUA, ih]

/-- One successful chat turn on an existing session appends exactly the
(user, query) and (assistant, result) pairs to that session's history,
preserving the client handle. -/
theorem chat_step_appends (eff : EffectOracle) (request : ChatRequest)
    (st : ServerState) (r : SessionRecord) (sid res : String)
    (hkey : truthyOptStr eff.apiKey = true)
    (hsid : request.session_id = some sid) (hne : ¬ sid = "")
    (h : st.active_sessions.lookup sid = some r)
    (hrun : eff.run (full_query request.query) = .ok res) :
    ∃ a : Agent,
      (chat_endpoint eff request st).2.active_sessions.lookup sid =
        some ⟨r.client,
          r.history ++ [("user", request.query), ("assistant", res)],
          some a⟩ := by
  have hb : (sid == "") = false := by simpa using hne
  have hls : localSessionId request.session_id eff.freshHex = sid := by
    simp [localSessionId, hsid, hb]
  obtain ⟨a, h2⟩ := ensure_agent_lookup (eff.apiKey.getD "") request.model h
  refine ⟨a, ?_⟩
  simp [chat_endpoint, hkey, hls, resolveSession_of_present eff.clientNew h,
    run_turn, hrun, appendHistory, h2, lookup_updateAssoc]

/-- After any list of good turns on an existing session, the history is
the original history followed by one (user, assistant) pair of entries
per turn, with the queries in call order. -/
theorem chatMany_history (sid : String)
    (turns : List (EffectOracle × ChatRequest)) :
    ∀ (st : ServerState) (r : SessionRecord),
      st.active_sessions.lookup sid = some r →
      (∀ t ∈ turns, goodTurn sid t) →
      ∃ rs : List String, rs.length = turns.length ∧
        ∃ r' : SessionRecord,
          (chatMany turns st).active_sessions.lookup sid = some r' ∧
          r'.client = r.client ∧
          r'.history = r.history ++
            turnsHistory ((turns.map (fun t => t.2.query)).zip rs) := by
  induction turns with
  | nil =>
    intro st r h hg
    exact ⟨[], rfl, r, h, rfl, by simp [turnsHistory]⟩
  | cons t ts ih =>
    intro st r h hg
    obtain ⟨hkey, hsid, hne, res, hrun⟩ := hg t (by simp)
    obtain ⟨a, h2⟩ := chat_step_appends t.1 t.2 st r sid res hkey hsid hne h hrun
    obtain ⟨rs, hlen, r', h3, hcl, hh⟩ :=
      ih (chat_endpoint t.1 t.2 st).2 _ h2
        (fun u hu => hg u (List.mem_cons_of_mem _ hu))
    refine ⟨res :: rs, by simp [hlen], r', ?_, ?_, ?_⟩
    · simpa [chatMany] using h3
    · simpa using hcl
    · rw [hh]
      simp [turnsHistory, List.zip]

/-- C9: starting from a session record with empty history, after N good
chat turns addressed to it the record's history is exactly the
turn-by-turn (user, query), (assistant, result) pairs in call order —
so it has length 2N and alternates user/assistant entries.  The history
grows only by appending (the prior history is a prefix of the new one
at every step, as `chatMany_history` shows with an arbitrary starting
history). -/
theorem history_after_turns (sid : String)
    (turns : List (EffectOracle × ChatRequest)) (st : ServerState)
    (r : SessionRecord)
    (h : st.active_sessions.lookup sid = some r)
    (hr : r.history = [])
    (hg : ∀ t ∈ turns, goodTurn sid t) :
    ∃ r' : SessionRecord,
      (chatMany turns st).active_sessions.lookup sid = some r' ∧
      (∃ rs : List String, rs.length = turns.length ∧
        r'.history =
          turnsHistory ((turns.map (fun t => t.2.query)).zip rs)) ∧
      r'.history.length = 2 * turns.length ∧
      alternatingUA r'.history = true := by
  obtain ⟨rs, hlen, r', h3, hcl, hh⟩ := chatMany_history sid turns st r h hg
  rw [hr] at hh
  simp only [List.nil_append] at hh
  refine ⟨r', h3, ⟨rs, hlen, hh⟩, ?_, ?_⟩
  · rw [hh, turnsHistory_length]
    simp [List.length_zip, hlen]
  · rw [hh]
    exact alternatingUA_turnsHistory _

/-- First concrete turn used by the C9 witness. -/
def turnW1 : EffectOracle × ChatRequest :=
  (⟨some "k", "f1", .ok (), fun _ => .ok "a1"⟩, ⟨"q1", some "s1", "gpt-4o"⟩)

/-- Second concrete turn used by the C9 witness. -/
def turnW2 : EffectOracle × ChatRequest :=
  (⟨some "k", "f2", .ok (), fun _ => .ok "a2"⟩, ⟨"q2", some "s1", "gpt-4o"⟩)

/-- Concrete starting state used by the C9 witness. -/
def stW : ServerState := ⟨[("s1", ⟨0, [], none⟩)], 1, 0⟩

/-- Witness for C9 at a concrete input: two turns on session "s1". -/
theorem history_after_turns_witness :
    ∃ r' : SessionRecord,
      (chatMany [turnW1, turnW2] stW).active_sessions.lookup "s1" =
        some r' ∧
      (∃ rs : List String, rs.length = [turnW1, turnW2].length ∧
        r'.history = turnsHistory
          (([turnW1, turnW2].map (fun t => t.2.query)).zip rs)) ∧
      r'.history.length = 2 * [turnW1, turnW2].length ∧
      alternatingUA r'.history = true :=
  history_after_turns "s1" [turnW1, turnW2] stW ⟨0, [], none⟩ rfl rfl
    (by
      intro t ht
      simp only [List.mem_cons, List.not_mem_nil, or_false] at ht
      rcases ht with rfl | rfl
      · exact ⟨rfl, rfl, by decide, "a1", rfl⟩
      · exact ⟨rfl, rfl, by decide, "a2", rfl⟩)

end App
